import Mathlib

/-!
Verification of the duotone preset resolver and CSS selector scoping logic in
`src/packages/block-editor/src/hooks/duotone.js`.

The JavaScript functions under study are dynamically typed, so the embedding
works over a small model `JS` of JavaScript values (no functions, no NaN, and
integer numbers only; none of the studied code constructs float-specific or
function values).  Strict equality (`===`) on arrays and objects is reference
equality in JavaScript; the model treats two array/object values as distinct
references, which matches every call site in the file (palette entries and
input color lists are built independently, never aliased).  A thrown
`TypeError` is modelled by `Option.none`; a normal return of `undefined` is
`some JS.undefined`.
-/

/-- Model of a JavaScript value, rich enough for the duotone resolver code. -/
inductive JS where
  | undefined
  | null
  | bool (b : Bool)
  | num (n : Int)
  | str (s : String)
  | arr (elems : List JS)
  | obj (fields : List (String × JS))

/-- JavaScript truthiness: `undefined`, `null`, `false`, `0` and `""` are
falsy; every array and object is truthy. -/
def truthy : JS → Bool
  | .undefined => false
  | .null => false
  | .bool b => b
  | .num n => n != 0
  | .str s => s != ""
  | .arr _ => true
  | .obj _ => true

/-- `Array.isArray`. -/
def isJsArray : JS → Bool
  | .arr _ => true
  | _ => false

/-- JavaScript strict equality `===` restricted to the model: structural on
primitives; arrays and objects compare by reference, modelled as distinct
references (hence unequal). -/
def jsStrictEq : JS → JS → Bool
  | .undefined, .undefined => true
  | .null, .null => true
  | .bool a, .bool b => a == b
  | .num a, .num b => a == b
  | .str a, .str b => a == b
  | _, _ => false

/-- Property access `v.k` on a non-nullish value: field lookup on objects,
`undefined` on primitives and arrays (none of the accessed names, `slug` and
`colors`, is a built-in property of those). -/
def getProp : JS → String → JS
  | .obj fields, k => ((fields.find? (fun f => f.1 == k)).map (fun f => f.2)).getD .undefined
  | _, _ => .undefined

mutual

/-- JavaScript `String(v)` coercion as used by template literals:
`String(undefined) = "undefined"`, arrays join their stringified elements with
commas (nullish elements become empty), plain objects give
`"[object Object]"`. -/
def jsToString : JS → String
  | .undefined => "undefined"
  | .null => "null"
  | .bool b => if b then "true" else "false"
  | .num n => toString n
  | .str s => s
  | .arr xs => String.intercalate "," (jsElemStrings xs)
  | .obj _ => "[object Object]"

/-- Stringification of array elements for `Array.prototype.toString`:
nullish elements contribute the empty string. -/
def jsElemStrings : List JS → List String
  | [] => []
  | .undefined :: rest => "" :: jsElemStrings rest
  | .null :: rest => "" :: jsElemStrings rest
  | x :: rest => jsToString x :: jsElemStrings rest

end

/-- The `duotonePalette?.find( ( { slug } ) => duotone === \x7bvar:preset|duotone|${ slug }\x7d )`
step of `getColorsFromDuotonePreset` (duotone.js lines 87-89), specialised to
an array palette.  Destructuring `{ slug }` of a nullish entry throws a
`TypeError` (`none`); on any other entry `slug` is the entry's `slug`
property (or `undefined`).  `find` yields the first matching entry, else
`undefined`. -/
def findPresetBySlug (duotone : JS) : List JS → Option JS
  | [] => some .undefined
  | entry :: rest =>
    match entry with
    | .undefined => none
    | .null => none
    | _ =>
      if jsStrictEq duotone (.str ("var:preset|duotone|" ++ jsToString (getProp entry "slug"))) then
        some entry
      else
        findPresetBySlug duotone rest

/-- `getColorsFromDuotonePreset( duotone, duotonePalette )` (duotone.js lines
83-92).  `if ( ! duotone ) return;` then
`duotonePalette?.find( ... )` (optional chaining: nullish palette short
circuits to `undefined`; a non-nullish non-array palette has no callable
`find`, so the call throws) and finally
`return preset ? preset.colors : undefined;`. -/
def getColorsFromDuotonePreset (duotone duotonePalette : JS) : Option JS :=
  if !(truthy duotone) then
    some .undefined
  else
    match duotonePalette with
    | .undefined => some .undefined
    | .null => some .undefined
    | .arr presets =>
      match findPresetBySlug duotone presets with
      | none => none
      | some preset => some (if truthy preset then getProp preset "colors" else .undefined)
    | _ => none

/-- The callback body `( val, index ) => val === colors[ index ]` iterated by
`duotonePreset?.colors?.every` (duotone.js lines 100-102): every element of
the preset's color list, at its own index, is strictly equal to the
corresponding element of `colors` (out-of-range access yields `undefined`). -/
def colorsMatchFrom (colors : List JS) : Nat → List JS → Bool
  | _, [] => true
  | i, val :: rest =>
    jsStrictEq val (colors.getD i .undefined) && colorsMatchFrom colors (i + 1) rest

/-- The `duotonePalette?.find( ( duotonePreset ) => duotonePreset?.colors?.every( ... ) )`
step of `getDuotonePresetFromColors` (duotone.js lines 99-103), specialised to
an array palette.  A nullish entry, or an entry whose `colors` property is
nullish, makes the optional chain produce `undefined` (falsy, no match); a
non-nullish non-array `colors` property has no callable `every`, so the
callback throws (`none`). -/
def findPresetByColors (colors : List JS) : List JS → Option JS
  | [] => some .undefined
  | entry :: rest =>
    match entry with
    | .undefined => findPresetByColors colors rest
    | .null => findPresetByColors colors rest
    | _ =>
      match getProp entry "colors" with
      | .undefined => findPresetByColors colors rest
      | .null => findPresetByColors colors rest
      | .arr presetColors =>
        if colorsMatchFrom colors 0 presetColors then
          some entry
        else
          findPresetByColors colors rest
      | _ => none

/-- `getDuotonePresetFromColors( colors, duotonePalette )` (duotone.js lines
94-106).  `if ( ! colors || ! Array.isArray( colors ) ) return;` then the
`find` over the palette (optional chaining as above) and finally
`return preset ? \x7bvar:preset|duotone|${ preset.slug }\x7d : undefined;`. -/
def getDuotonePresetFromColors (colors duotonePalette : JS) : Option JS :=
  if !(truthy colors) || !(isJsArray colors) then
    some .undefined
  else
    match colors with
    | .arr colorList =>
      match duotonePalette with
      | .undefined => some .undefined
      | .null => some .undefined
      | .arr presets =>
        match findPresetByColors colorList presets with
        | none => none
        | some preset =>
          some (if truthy preset then .str ("var:preset|duotone|" ++ jsToString (getProp preset "slug")) else .undefined)
      | _ => none
    | _ => some .undefined

/-- A well-formed duotone preset as described by the palette configuration:
a slug and an ordered list of color strings. -/
structure DuotonePreset where
  slug : String
  colors : List String

/-- The JavaScript object a well-formed preset denotes. -/
def presetToJS (p : DuotonePreset) : JS :=
  .obj [("slug", .str p.slug), ("colors", .arr (p.colors.map .str))]

/-- The JavaScript array a well-formed palette denotes. -/
def paletteToJS (P : List DuotonePreset) : JS :=
  .arr (P.map presetToJS)

/-- Matching rule as worded by the specification: the preset's color list is
element-wise equal to `colors` at each index of the preset's own color list,
comparing only up to the preset's own length (extra trailing elements of
`colors` are not checked). -/
def specColorsMatch : List String → List String → Bool
  | [], _ => true
  | _ :: _, [] => false
  | p :: ps, c :: cs => p == c && specColorsMatch ps cs

/-- Palette entries that the destructuring `( { slug } )` accepts without
throwing. -/
def notNullish : JS → Bool
  | .undefined => false
  | .null => false
  | _ => true

/-- `colors` property values on which the optional chain
`duotonePreset?.colors?.every( ... )` does not throw. -/
def colorsFieldOk : JS → Bool
  | .undefined => true
  | .null => true
  | .arr _ => true
  | _ => false

/-- The colors computation of `BlockDuotoneStyles` (duotone.js lines 240-244):
`let colors = duotoneStyle; if ( ! Array.isArray( colors ) && colors !== 'unset' ) colors = getColorsFromDuotonePreset( colors, duotonePalette );`.
The boolean in the result records whether `getColorsFromDuotonePreset` was
invoked. -/
def blockDuotoneStylesColors (duotoneStyle duotonePalette : JS) : Option (JS × Bool) :=
  if !(isJsArray duotoneStyle) && !(jsStrictEq duotoneStyle (.str "unset")) then
    (getColorsFromDuotonePreset duotoneStyle duotonePalette).map (fun c => (c, true))
  else
    some (duotoneStyle, false)

/-- The value computation of `DuotonePanel` (duotone.js lines 129-131):
`const duotonePresetOrColors = ! Array.isArray( duotoneStyle ) ? getColorsFromDuotonePreset( duotoneStyle, duotonePalette ) : duotoneStyle;`.
The boolean in the result records whether `getColorsFromDuotonePreset` was
invoked. -/
def duotonePanelValue (duotoneStyle duotonePalette : JS) : Option (JS × Bool) :=
  if !(isJsArray duotoneStyle) then
    (getColorsFromDuotonePreset duotoneStyle duotonePalette).map (fun c => (c, true))
  else
    some (duotoneStyle, false)

/-- `String.prototype.split` on a single-character separator, at the level of
character lists: `"".split(",") = [""]`, a trailing separator yields a
trailing empty group. -/
def splitCharsOn (c : Char) : List Char → List (List Char)
  | [] => [[]]
  | ch :: rest =>
    if ch = c then
      [] :: splitCharsOn c rest
    else
      match splitCharsOn c rest with
      | [] => [[ch]]
      | g :: gs => (ch :: g) :: gs

/-- JavaScript `s.split( ',' )`. -/
def splitComma (s : String) : List String :=
  (splitCharsOn ',' s.data).map String.mk

/-- Whitespace removed by `String.prototype.trim` (the ASCII part; the
selectors under study contain no exotic whitespace). -/
def isJsWhitespaceChar (c : Char) : Bool :=
  c = ' ' || c = '\t' || c = '\n' || c = '\r' || c = '\x0b' || c = '\x0c'

/-- JavaScript `s.trim()`: strip leading and trailing whitespace. -/
def jsTrim (s : String) : String :=
  String.mk (((s.data.dropWhile isJsWhitespaceChar).reverse.dropWhile isJsWhitespaceChar).reverse)

/-- The body of the nested `forEach` in `BlockDuotoneStyles` (duotone.js lines
262-273) for one `( outer, inner )` pair: trim both parts, then
`if ( outer && inner )` push `'.editor-styles-wrapper ' + outer + '' + inner`,
`else if ( outer )` push `'.editor-styles-wrapper ' + inner`,
`else if ( inner )` push `'.editor-styles-wrapper ' + outer`,
else push nothing. -/
def scopePair (outer inner : String) : List String :=
  let o := jsTrim outer
  let i := jsTrim inner
  if o != "" && i != "" then
    [".editor-styles-wrapper " ++ o ++ "" ++ i]
  else if o != "" then
    [".editor-styles-wrapper " ++ i]
  else if i != "" then
    [".editor-styles-wrapper " ++ o]
  else
    []

/-- The selector scoping computation of `BlockDuotoneStyles` (duotone.js lines
256-276), parameterised by the scope-token string (in the source,
`'.' + id`) and the block's comma-separated duotone selector list: split both
on commas, walk the cartesian product scope-major / selector-minor, emit
`scopePair` for each pair, and join everything with commas. -/
def computeScopedDuotoneSelectors (scopeTokens selectorList : String) : String :=
  String.intercalate ","
    ((splitComma scopeTokens).flatMap (fun outer =>
      (splitComma selectorList).flatMap (fun inner => scopePair outer inner)))

/-! ## Helper lemmas -/

theorem string_append_right_cancel (a b c : String) (h : a ++ b = a ++ c) : b = c := by
  have hd := congrArg String.data h
  simp [String.data_append] at hd
  exact String.ext hd

theorem ref_append_ne (s t : String) (h : (s == t) = false) :
    (("var:preset|duotone|" ++ s) == ("var:preset|duotone|" ++ t)) = false := by
  rw [beq_eq_false_iff_ne] at h ⊢
  intro hc
  exact h (string_append_right_cancel _ _ _ hc)

theorem unset_ne_ref (s : String) : ("unset" == "var:preset|duotone|" ++ s) = false := by
  rw [beq_eq_false_iff_ne]
  intro h
  have h2 := congrArg String.length h
  have h3 : "unset".length = 5 := rfl
  have h4 : "var:preset|duotone|".length = 19 := rfl
  rw [String.length_append, h3, h4] at h2
  omega

theorem ref_nonempty (s : String) : (("var:preset|duotone|" ++ s) != "") = true := by
  rw [bne_iff_ne]
  intro h
  have h2 := congrArg String.length h
  have h4 : "var:preset|duotone|".length = 19 := rfl
  have h5 : "".length = 0 := rfl
  rw [String.length_append, h4, h5] at h2
  omega

theorem findPresetBySlug_cons_preset (d : String) (p : DuotonePreset) (rest : List JS) :
    findPresetBySlug (.str d) (presetToJS p :: rest) =
      if (d == "var:preset|duotone|" ++ p.slug) = true then some (presetToJS p)
      else findPresetBySlug (.str d) rest := rfl

theorem findPresetBySlug_map (d : String) (P : List DuotonePreset) :
    findPresetBySlug (.str d) (P.map presetToJS) =
      some (match P.find? (fun p => d == "var:preset|duotone|" ++ p.slug) with
            | some p => presetToJS p
            | none => .undefined) := by
  induction P with
  | nil => rfl
  | cons p ps ih =>
    rw [List.map_cons, findPresetBySlug_cons_preset]
    cases h : (d == "var:preset|duotone|" ++ p.slug) with
    | true =>
      have hf : (p :: ps).find? (fun q => d == "var:preset|duotone|" ++ q.slug) = some p := by
        rw [List.find?_cons]
        simp only [h]
      rw [if_pos rfl, hf]
    | false =>
      have hf : (p :: ps).find? (fun q => d == "var:preset|duotone|" ++ q.slug) =
          ps.find? (fun q => d == "var:preset|duotone|" ++ q.slug) := by
        rw [List.find?_cons]
        simp only [h]
      rw [if_neg (by simp), ih, hf]

theorem findPresetByColors_cons_preset (cs : List JS) (p : DuotonePreset) (rest : List JS) :
    findPresetByColors cs (presetToJS p :: rest) =
      if colorsMatchFrom cs 0 (p.colors.map .str) = true then some (presetToJS p)
      else findPresetByColors cs rest := rfl

theorem colorsMatchFrom_spec (ps cs : List String) : ∀ i : Nat,
    colorsMatchFrom (cs.map .str) i (ps.map .str) = specColorsMatch ps (cs.drop i) := by
  induction ps with
  | nil => intro i; rfl
  | cons p ps ih =>
    intro i
    by_cases hi : i < cs.length
    · have hdrop := List.drop_eq_getElem_cons hi
      have hget : (cs.map JS.str).getD i .undefined = .str cs[i] := by
        rw [List.getD_eq_getElem?_getD, List.getElem?_map, List.getElem?_eq_getElem hi]
        rfl
      rw [List.map_cons]
      show (jsStrictEq (.str p) ((cs.map JS.str).getD i .undefined) &&
        colorsMatchFrom (cs.map .str) (i + 1) (ps.map .str)) = _
      rw [hget, hdrop, ih]
      rfl
    · have hlen : cs.length ≤ i := Nat.le_of_not_lt hi
      have hdrop : cs.drop i = [] := List.drop_eq_nil_of_le hlen
      have hget : (cs.map JS.str).getD i .undefined = .undefined := by
        rw [List.getD_eq_getElem?_getD, List.getElem?_map, List.getElem?_eq_none hlen]
        rfl
      rw [List.map_cons]
      show (jsStrictEq (.str p) ((cs.map JS.str).getD i .undefined) &&
        colorsMatchFrom (cs.map .str) (i + 1) (ps.map .str)) = _
      rw [hget, hdrop]
      rfl

theorem findPresetByColors_map (cs : List String) (P : List DuotonePreset) :
    findPresetByColors (cs.map .str) (P.map presetToJS) =
      some (match P.find? (fun p => specColorsMatch p.colors cs) with
            | some p => presetToJS p
            | none => .undefined) := by
  induction P with
  | nil => rfl
  | cons p ps ih =>
    rw [List.map_cons, findPresetByColors_cons_preset]
    have hm : colorsMatchFrom (cs.map JS.str) 0 (p.colors.map JS.str) =
        specColorsMatch p.colors cs := by
      rw [colorsMatchFrom_spec, List.drop_zero]
    rw [hm]
    cases h : specColorsMatch p.colors cs with
    | true =>
      have hf : (p :: ps).find? (fun q => specColorsMatch q.colors cs) = some p := by
        rw [List.find?_cons]
        simp only [h]
      rw [if_pos rfl, hf]
    | false =>
      have hf : (p :: ps).find? (fun q => specColorsMatch q.colors cs) =
          ps.find? (fun q => specColorsMatch q.colors cs) := by
        rw [List.find?_cons]
        simp only [h]
      rw [if_neg (by simp), ih, hf]

theorem getDuotonePresetFromColors_map (cs : List String) (P : List DuotonePreset) :
    getDuotonePresetFromColors (.arr (cs.map .str)) (paletteToJS P) =
      some (match P.find? (fun p => specColorsMatch p.colors cs) with
            | some p => .str ("var:preset|duotone|" ++ p.slug)
            | none => .undefined) := by
  show (match findPresetByColors (cs.map JS.str) (P.map presetToJS) with
        | none => none
        | some preset =>
          some (if truthy preset then
            JS.str ("var:preset|duotone|" ++ jsToString (getProp preset "slug")) else JS.undefined)) = _
  rw [findPresetByColors_map]
  cases hf : P.find? (fun p => specColorsMatch p.colors cs) with
  | none => rfl
  | some p => rfl

theorem getColorsFromDuotonePreset_map (d : String) (P : List DuotonePreset)
    (hd : (d != "") = true) :
    getColorsFromDuotonePreset (.str d) (paletteToJS P) =
      some (match P.find? (fun p => d == "var:preset|duotone|" ++ p.slug) with
            | some p => .arr (p.colors.map .str)
            | none => .undefined) := by
  have hng : ¬((!(truthy (JS.str d))) = true) := by
    show ¬((!(d != "")) = true)
    rw [hd]
    simp
  unfold getColorsFromDuotonePreset
  rw [if_neg hng]
  show (match findPresetBySlug (JS.str d) (P.map presetToJS) with
        | none => none
        | some preset =>
          some (if truthy preset then getProp preset "colors" else JS.undefined)) = _
  rw [findPresetBySlug_map]
  cases hf : P.find? (fun p => d == "var:preset|duotone|" ++ p.slug) with
  | none => rfl
  | some p => rfl

theorem findPresetBySlug_cons_notNullish (d e : JS) (rest : List JS)
    (he : notNullish e = true) :
    findPresetBySlug d (e :: rest) =
      if jsStrictEq d (.str ("var:preset|duotone|" ++ jsToString (getProp e "slug"))) = true
      then some e
      else findPresetBySlug d rest := by
  cases e <;> first | rfl | simp [notNullish] at he

theorem findPresetBySlug_total (d : JS) (xs : List JS) (h : xs.all notNullish = true) :
    ∃ r, findPresetBySlug d xs = some r := by
  induction xs with
  | nil => exact ⟨.undefined, rfl⟩
  | cons e rest ih =>
    rw [List.all_cons, Bool.and_eq_true] at h
    obtain ⟨he, hrest⟩ := h
    obtain ⟨r, hr⟩ := ih hrest
    rw [findPresetBySlug_cons_notNullish d e rest he]
    by_cases hc : jsStrictEq d (.str ("var:preset|duotone|" ++ jsToString (getProp e "slug"))) = true
    · exact ⟨e, if_pos hc⟩
    · rw [if_neg hc]
      exact ⟨r, hr⟩

theorem findPresetByColors_cons_obj (cs : List JS) (fields : List (String × JS))
    (rest : List JS) :
    findPresetByColors cs (.obj fields :: rest) =
      match getProp (.obj fields) "colors" with
      | .undefined => findPresetByColors cs rest
      | .null => findPresetByColors cs rest
      | .arr presetColors =>
        if colorsMatchFrom cs 0 presetColors then some (.obj fields)
        else findPresetByColors cs rest
      | _ => none := rfl

theorem findPresetByColors_total (cs : List JS) (xs : List JS)
    (h : xs.all (fun e => colorsFieldOk (getProp e "colors")) = true) :
    ∃ r, findPresetByColors cs xs = some r := by
  induction xs with
  | nil => exact ⟨.undefined, rfl⟩
  | cons e rest ih =>
    rw [List.all_cons, Bool.and_eq_true] at h
    obtain ⟨he, hrest⟩ := h
    obtain ⟨r, hr⟩ := ih hrest
    cases e with
    | undefined => exact ⟨r, hr⟩
    | null => exact ⟨r, hr⟩
    | bool b => exact ⟨r, hr⟩
    | num n => exact ⟨r, hr⟩
    | str s => exact ⟨r, hr⟩
    | arr xs2 => exact ⟨r, hr⟩
    | obj fields =>
      rw [findPresetByColors_cons_obj]
      cases hcp : getProp (.obj fields) "colors" with
      | undefined => exact ⟨r, hr⟩
      | null => exact ⟨r, hr⟩
      | arr pc =>
        show ∃ r, (if colorsMatchFrom cs 0 pc = true then some (JS.obj fields)
          else findPresetByColors cs rest) = some r
        by_cases hm : colorsMatchFrom cs 0 pc = true
        · exact ⟨.obj fields, if_pos hm⟩
        · rw [if_neg hm]
          exact ⟨r, hr⟩
      | bool b => rw [hcp] at he; simp [colorsFieldOk] at he
      | num n => rw [hcp] at he; simp [colorsFieldOk] at he
      | str s => rw [hcp] at he; simp [colorsFieldOk] at he
      | obj fields2 => rw [hcp] at he; simp [colorsFieldOk] at he

/-- Shared lemma: a non-array `colors` argument makes
`getDuotonePresetFromColors` return `undefined` via the initial guard, for
every palette value whatsoever (the palette expression is never evaluated
past the guard). -/
theorem getDuotonePresetFromColors_of_not_array (colors palette : JS)
    (h : isJsArray colors = false) :
    getDuotonePresetFromColors colors palette = some .undefined := by
  unfold getDuotonePresetFromColors
  rw [if_pos (by simp [h])]

/-! ## Claim theorems -/

/-- C1: `getDuotonePresetFromColors` scans the palette in order and, for an
array input `colors`, returns the formatted symbolic reference
`var:preset|duotone|<slug>` of the first preset whose color list is
element-wise equal to `colors` at each index of the preset's own color list
(comparing only up to the preset's own length; extra trailing elements of
`colors` are not checked), and returns `undefined` if no preset matches. -/
theorem getDuotonePresetFromColors_first_match (P : List DuotonePreset) (cs : List String) :
    getDuotonePresetFromColors (.arr (cs.map .str)) (paletteToJS P) =
      some (match P.find? (fun p => specColorsMatch p.colors cs) with
            | some p => .str ("var:preset|duotone|" ++ p.slug)
            | none => .undefined) :=
  getDuotonePresetFromColors_map cs P

/-- C2 (code bug): for a `(scope, selector)` pair where exactly one part is
non-empty after trimming, the code pushes the editor-wrapper prefix followed
by the EMPTY part (the two `else if` branches push the wrong variable),
yielding the bare prefix `".editor-styles-wrapper "` instead of the prefix
followed by the non-empty part. -/
theorem scopePair_single_nonempty_emits_empty_part :
    scopePair ".wp-duotone-1" "" = [".editor-styles-wrapper "] ∧
    scopePair "" "filter.duotone-sel" = [".editor-styles-wrapper "] ∧
    computeScopedDuotoneSelectors ".wp-duotone-1" "a," =
      ".editor-styles-wrapper .wp-duotone-1a,.editor-styles-wrapper " := by
  decide

/-- C3 counterexample: with a palette containing two presets of the same
slug, the second preset `p` is an element of the palette, yet resolving
`var:preset|duotone| ++ p.slug` returns the FIRST preset's colors, not
`p.colors`. -/
theorem getColorsFromDuotonePreset_duplicate_slug_counterexample :
    (⟨"a", ["y"]⟩ : DuotonePreset) ∈ ([⟨"a", ["x"]⟩, ⟨"a", ["y"]⟩] : List DuotonePreset) ∧
    getColorsFromDuotonePreset (.str ("var:preset|duotone|" ++ "a"))
      (paletteToJS [⟨"a", ["x"]⟩, ⟨"a", ["y"]⟩]) = some (.arr [.str "x"]) ∧
    getColorsFromDuotonePreset (.str ("var:preset|duotone|" ++ "a"))
      (paletteToJS [⟨"a", ["x"]⟩, ⟨"a", ["y"]⟩]) ≠
      some (.arr ((⟨"a", ["y"]⟩ : DuotonePreset).colors.map .str)) := by
  refine ⟨.tail _ (.head _), rfl, ?_⟩
  intro h
  rw [show getColorsFromDuotonePreset (.str ("var:preset|duotone|" ++ "a"))
      (paletteToJS [⟨"a", ["x"]⟩, ⟨"a", ["y"]⟩]) = some (.arr [.str "x"]) from rfl] at h
  injection h with h1
  injection h1 with h2
  injection h2 with h3 h4
  injection h3 with h5
  exact absurd h5 (by decide)

/-- C3 (amended): for every palette of well-formed presets and every preset
`p` in it such that no EARLIER entry has the same slug,
`getColorsFromDuotonePreset ("var:preset|duotone|" ++ p.slug)` returns
exactly `p.colors` (first matching slug in palette order wins). -/
theorem getColorsFromDuotonePreset_first_slug (pre post : List DuotonePreset)
    (p : DuotonePreset) (h : pre.all (fun q => q.slug != p.slug) = true) :
    getColorsFromDuotonePreset (.str ("var:preset|duotone|" ++ p.slug))
      (paletteToJS (pre ++ p :: post)) = some (.arr (p.colors.map .str)) := by
  rw [getColorsFromDuotonePreset_map _ _ (ref_nonempty p.slug)]
  have hpre : pre.find?
      (fun q => ("var:preset|duotone|" ++ p.slug) == "var:preset|duotone|" ++ q.slug) = none := by
    rw [List.find?_eq_none]
    intro q hq
    rw [List.all_eq_true] at h
    have hne := h q hq
    rw [bne_iff_ne] at hne
    intro hc
    rw [beq_iff_eq] at hc
    exact hne (string_append_right_cancel _ _ _ hc).symm
  have hfind : (pre ++ p :: post).find?
      (fun q => ("var:preset|duotone|" ++ p.slug) == "var:preset|duotone|" ++ q.slug) = some p := by
    rw [List.find?_append, hpre, List.find?_cons]
    simp
  rw [hfind]

theorem getColorsFromDuotonePreset_first_slug_witness :
    getColorsFromDuotonePreset (.str ("var:preset|duotone|" ++ "a"))
      (paletteToJS ([⟨"b", ["z"]⟩] ++ ⟨"a", ["x"]⟩ :: [])) = some (.arr (["x"].map .str)) :=
  getColorsFromDuotonePreset_first_slug [⟨"b", ["z"]⟩] [] ⟨"a", ["x"]⟩ (by decide)

/-- C4 counterexample: the preset `p2` with colors `["x", "y"]` is in the
palette, yet resolving `["x", "y"]` returns the reference of the EARLIER
preset `q` whose single-element color list `["x"]` already matches (the
comparison only checks up to the earlier preset's own length). -/
theorem getDuotonePresetFromColors_earlier_match_counterexample :
    (⟨"p2", ["x", "y"]⟩ : DuotonePreset) ∈
      ([⟨"q", ["x"]⟩, ⟨"p2", ["x", "y"]⟩] : List DuotonePreset) ∧
    getDuotonePresetFromColors (.arr [.str "x", .str "y"])
      (paletteToJS [⟨"q", ["x"]⟩, ⟨"p2", ["x", "y"]⟩]) =
      some (.str ("var:preset|duotone|" ++ "q")) ∧
    getDuotonePresetFromColors (.arr [.str "x", .str "y"])
      (paletteToJS [⟨"q", ["x"]⟩, ⟨"p2", ["x", "y"]⟩]) ≠
      some (.str ("var:preset|duotone|" ++ "p2")) := by
  refine ⟨.tail _ (.head _), rfl, ?_⟩
  intro h
  rw [show getDuotonePresetFromColors (.arr [.str "x", .str "y"])
      (paletteToJS [⟨"q", ["x"]⟩, ⟨"p2", ["x", "y"]⟩]) =
      some (.str ("var:preset|duotone|" ++ "q")) from rfl] at h
  injection h with h1
  injection h1 with h2
  have h3 := string_append_right_cancel _ _ _ h2
  exact absurd h3 (by decide)

/-- C4 (amended): for every palette of well-formed presets and every preset
`p` in it with colors `[c0, c1]` such that no EARLIER entry element-wise
matches `[c0, c1]` up to its own length, resolving `[c0, c1]` returns
`"var:preset|duotone|" ++ p.slug` (first matching preset in palette order
wins). -/
theorem getDuotonePresetFromColors_first_preset (pre post : List DuotonePreset)
    (p : DuotonePreset) (c0 c1 : String) (hp : p.colors = [c0, c1])
    (h : pre.all (fun q => !(specColorsMatch q.colors [c0, c1])) = true) :
    getDuotonePresetFromColors (.arr [.str c0, .str c1]) (paletteToJS (pre ++ p :: post)) =
      some (.str ("var:preset|duotone|" ++ p.slug)) := by
  have hc : ([c0, c1].map JS.str) = [JS.str c0, JS.str c1] := rfl
  rw [← hc, getDuotonePresetFromColors_map]
  have hpre : pre.find? (fun q => specColorsMatch q.colors [c0, c1]) = none := by
    rw [List.find?_eq_none]
    intro q hq
    rw [List.all_eq_true] at h
    have hq2 := h q hq
    simp only [Bool.not_eq_true'] at hq2
    simp [hq2]
  have hfind : (pre ++ p :: post).find? (fun q => specColorsMatch q.colors [c0, c1]) = some p := by
    have hm : specColorsMatch p.colors [c0, c1] = true := by
      rw [hp]
      simp [specColorsMatch]
    rw [List.find?_append, hpre, List.find?_cons]
    simp [hm]
  rw [hfind]

theorem getDuotonePresetFromColors_first_preset_witness :
    getDuotonePresetFromColors (.arr [.str "x", .str "y"])
      (paletteToJS ([⟨"q", ["z"]⟩] ++ ⟨"p2", ["x", "y"]⟩ :: [])) =
      some (.str ("var:preset|duotone|" ++ "p2")) :=
  getDuotonePresetFromColors_first_preset [⟨"q", ["z"]⟩] [] ⟨"p2", ["x", "y"]⟩ "x" "y" rfl
    (by decide)

/-- C5: splitting both strings on commas and walking the cartesian product
scope-major, selector-minor, the scope token `".wp-duotone-1,.wp-duotone-2"`
and selector list `"a,b"` produce the four comma-joined compound selectors
in scope-major order. -/
theorem computeScopedDuotoneSelectors_two_by_two :
    computeScopedDuotoneSelectors ".wp-duotone-1,.wp-duotone-2" "a,b" =
      ".editor-styles-wrapper .wp-duotone-1a,.editor-styles-wrapper .wp-duotone-1b,.editor-styles-wrapper .wp-duotone-2a,.editor-styles-wrapper .wp-duotone-2b" := by
  decide

/-- C6: a single scope and a single selector produce the wrapper ancestor
prefix followed by scope and selector concatenated with no separating
space. -/
theorem computeScopedDuotoneSelectors_single :
    computeScopedDuotoneSelectors ".wp-duotone-1" "filter.duotone-sel" =
      ".editor-styles-wrapper .wp-duotone-1filter.duotone-sel" := by
  decide

/-- C7 counterexample: the resolvers are NOT total over all inputs: a
nullish palette entry makes the destructuring in `getColorsFromDuotonePreset`
throw a `TypeError` (modelled `none`); an entry whose `colors` field is a
non-array non-nullish value, or a palette that is a non-array non-nullish
value, makes `getDuotonePresetFromColors` throw. -/
theorem duotone_resolvers_throw_counterexample :
    getColorsFromDuotonePreset (.str "x") (.arr [.null]) = none ∧
    getDuotonePresetFromColors (.arr [.str "a"]) (.arr [.obj [("colors", .str "oops")]]) = none ∧
    getDuotonePresetFromColors (.arr [.str "a"]) (.num 5) = none :=
  ⟨rfl, rfl, rfl⟩

/-- C7 (amended): both resolvers return normally (a result or `undefined`,
never a thrown `TypeError`) for every `styleValue` / `colors` input,
whenever the palette is nullish, or an array whose entries are non-nullish
(for `getColorsFromDuotonePreset`), respectively an array whose entries
have a nullish-or-array `colors` field (for `getDuotonePresetFromColors`);
non-array `colors` inputs degrade to `undefined`. -/
theorem duotone_resolvers_total (duotone colors : JS) (xs ys : List JS)
    (hx : xs.all notNullish = true)
    (hy : ys.all (fun e => colorsFieldOk (getProp e "colors")) = true) :
    (∃ r, getColorsFromDuotonePreset duotone (.arr xs) = some r) ∧
    (∃ r, getColorsFromDuotonePreset duotone .null = some r) ∧
    (∃ r, getColorsFromDuotonePreset duotone .undefined = some r) ∧
    (∃ r, getDuotonePresetFromColors colors (.arr ys) = some r) ∧
    (∃ r, getDuotonePresetFromColors colors .null = some r) ∧
    (∃ r, getDuotonePresetFromColors colors .undefined = some r) := by
  refine ⟨?_, ?_, ?_, ?_, ?_, ?_⟩
  · by_cases ht : truthy duotone = true
    · obtain ⟨r, hr⟩ := findPresetBySlug_total duotone xs hx
      refine ⟨if truthy r then getProp r "colors" else .undefined, ?_⟩
      unfold getColorsFromDuotonePreset
      rw [if_neg (by simp [ht])]
      show (match findPresetBySlug duotone xs with
            | none => none
            | some preset =>
              some (if truthy preset then getProp preset "colors" else JS.undefined)) = _
      rw [hr]
    · exact ⟨.undefined, by
        unfold getColorsFromDuotonePreset
        rw [if_pos (by simp [Bool.not_eq_true] at ht ⊢; exact ht)]⟩
  · by_cases ht : truthy duotone = true
    · exact ⟨.undefined, by unfold getColorsFromDuotonePreset; rw [if_neg (by simp [ht])]⟩
    · exact ⟨.undefined, by
        unfold getColorsFromDuotonePreset
        rw [if_pos (by simp [Bool.not_eq_true] at ht ⊢; exact ht)]⟩
  · by_cases ht : truthy duotone = true
    · exact ⟨.undefined, by unfold getColorsFromDuotonePreset; rw [if_neg (by simp [ht])]⟩
    · exact ⟨.undefined, by
        unfold getColorsFromDuotonePreset
        rw [if_pos (by simp [Bool.not_eq_true] at ht ⊢; exact ht)]⟩
  · cases colors with
    | arr cl =>
      obtain ⟨r, hr⟩ := findPresetByColors_total cl ys hy
      refine ⟨if truthy r then
        .str ("var:preset|duotone|" ++ jsToString (getProp r "slug")) else .undefined, ?_⟩
      show (match findPresetByColors cl ys with
            | none => none
            | some preset =>
              some (if truthy preset then
                JS.str ("var:preset|duotone|" ++ jsToString (getProp preset "slug"))
              else JS.undefined)) = _
      rw [hr]
    | undefined => exact ⟨.undefined, getDuotonePresetFromColors_of_not_array _ _ rfl⟩
    | null => exact ⟨.undefined, getDuotonePresetFromColors_of_not_array _ _ rfl⟩
    | bool b => exact ⟨.undefined, getDuotonePresetFromColors_of_not_array _ _ rfl⟩
    | num n => exact ⟨.undefined, getDuotonePresetFromColors_of_not_array _ _ rfl⟩
    | str s => exact ⟨.undefined, getDuotonePresetFromColors_of_not_array _ _ rfl⟩
    | obj fields => exact ⟨.undefined, getDuotonePresetFromColors_of_not_array _ _ rfl⟩
  · cases colors with
    | arr cl => exact ⟨.undefined, rfl⟩
    | undefined => exact ⟨.undefined, getDuotonePresetFromColors_of_not_array _ _ rfl⟩
    | null => exact ⟨.undefined, getDuotonePresetFromColors_of_not_array _ _ rfl⟩
    | bool b => exact ⟨.undefined, getDuotonePresetFromColors_of_not_array _ _ rfl⟩
    | num n => exact ⟨.undefined, getDuotonePresetFromColors_of_not_array _ _ rfl⟩
    | str s => exact ⟨.undefined, getDuotonePresetFromColors_of_not_array _ _ rfl⟩
    | obj fields => exact ⟨.undefined, getDuotonePresetFromColors_of_not_array _ _ rfl⟩
  · cases colors with
    | arr cl => exact ⟨.undefined, rfl⟩
    | undefined => exact ⟨.undefined, getDuotonePresetFromColors_of_not_array _ _ rfl⟩
    | null => exact ⟨.undefined, getDuotonePresetFromColors_of_not_array _ _ rfl⟩
    | bool b => exact ⟨.undefined, getDuotonePresetFromColors_of_not_array _ _ rfl⟩
    | num n => exact ⟨.undefined, getDuotonePresetFromColors_of_not_array _ _ rfl⟩
    | str s => exact ⟨.undefined, getDuotonePresetFromColors_of_not_array _ _ rfl⟩
    | obj fields => exact ⟨.undefined, getDuotonePresetFromColors_of_not_array _ _ rfl⟩

theorem duotone_resolvers_total_witness :
    (∃ r, getColorsFromDuotonePreset (.str "x") (.arr [.obj [("slug", .str "b")]]) = some r) ∧
    (∃ r, getColorsFromDuotonePreset (.str "x") .null = some r) ∧
    (∃ r, getColorsFromDuotonePreset (.str "x") .undefined = some r) ∧
    (∃ r, getDuotonePresetFromColors (.arr [.str "a"]) (.arr [.obj []]) = some r) ∧
    (∃ r, getDuotonePresetFromColors (.arr [.str "a"]) .null = some r) ∧
    (∃ r, getDuotonePresetFromColors (.arr [.str "a"]) .undefined = some r) :=
  duotone_resolvers_total (.str "x") (.arr [.str "a"]) [.obj [("slug", .str "b")]] [.obj []]
    rfl rfl

/-- C8 counterexample: the styling pipeline DOES invoke
`getColorsFromDuotonePreset` on the sentinel `"unset"`: in `DuotonePanel`
(duotone.js lines 129-131) the sentinel is not an array, so the ternary
calls the resolver with it (the boolean flag in the model records the
invocation). -/
theorem duotonePanel_invokes_on_unset :
    duotonePanelValue (.str "unset") (.arr []) = some (.undefined, true) := rfl

/-- C8 (amended): in `BlockDuotoneStyles` the explicit guard keeps
`getColorsFromDuotonePreset` from being invoked on `"unset"` for every
palette value; `DuotonePanel` does invoke it on `"unset"`, but for every
palette of well-formed presets the call returns `undefined` (the sentinel
can never equal a `var:preset|duotone|` reference), so the sentinel never
resolves to preset colors. -/
theorem unset_sentinel_handling (palette : JS) (P : List DuotonePreset) :
    blockDuotoneStylesColors (.str "unset") palette = some (.str "unset", false) ∧
    duotonePanelValue (.str "unset") (paletteToJS P) = some (.undefined, true) := by
  constructor
  · rfl
  · show (getColorsFromDuotonePreset (.str "unset") (paletteToJS P)).map (fun c => (c, true)) = _
    rw [getColorsFromDuotonePreset_map _ _ (by decide)]
    have hfind : P.find? (fun p => "unset" == "var:preset|duotone|" ++ p.slug) = none := by
      rw [List.find?_eq_none]
      intro p hp
      simp [unset_ne_ref]
    rw [hfind]
    rfl

/-- C9: for every non-array `colors` input and EVERY palette value (including
values on which inspecting the palette would throw, such as a number), the
resolver returns `undefined` immediately from its guard. -/
theorem getDuotonePresetFromColors_non_array (colors palette : JS)
    (h : isJsArray colors = false) :
    getDuotonePresetFromColors colors palette = some .undefined :=
  getDuotonePresetFromColors_of_not_array colors palette h

theorem getDuotonePresetFromColors_non_array_witness :
    getDuotonePresetFromColors (.str "x") (.num 5) = some .undefined :=
  getDuotonePresetFromColors_non_array (.str "x") (.num 5) rfl

/-- C10: a palette whose first entry is a preset with an empty colors list
makes `getDuotonePresetFromColors` return that preset's symbolic reference
for every array input (the `every` is vacuously true); conversely, an entry
whose `colors` field is missing or nullish is skipped by the palette scan
and never matches. -/
theorem empty_preset_matches_nullish_colors_skip (slug : String) (rest cs : List JS)
    (entry : JS)
    (h : getProp entry "colors" = .undefined ∨ getProp entry "colors" = .null) :
    getDuotonePresetFromColors (.arr cs) (.arr (presetToJS ⟨slug, []⟩ :: rest)) =
      some (.str ("var:preset|duotone|" ++ slug)) ∧
    findPresetByColors cs (entry :: rest) = findPresetByColors cs rest := by
  constructor
  · rfl
  · cases entry with
    | undefined => rfl
    | null => rfl
    | bool b => rfl
    | num n => rfl
    | str s => rfl
    | arr xs2 => rfl
    | obj fields =>
      rw [findPresetByColors_cons_obj]
      rcases h with h | h <;> rw [h]

theorem empty_preset_matches_nullish_colors_skip_witness :
    getDuotonePresetFromColors (.arr []) (.arr (presetToJS ⟨"e", []⟩ :: [])) =
      some (.str ("var:preset|duotone|" ++ "e")) ∧
    findPresetByColors [] [.obj []] = findPresetByColors [] [] :=
  empty_preset_matches_nullish_colors_skip "e" [] [] (.obj []) (Or.inl rfl)
